import Mathlib

/-!
Verification of the Maelmon backend card-supply and daily-claim core.

The repository stores one MongoDB `Card` collection.  The admin route
`POST /api/admin/cards` (src/unnamed/part_000, lines 154-232) implements the
definition/restock supply model: a "definition" is the first card document
matching `(name, type, rarity)` with `ownerId: null`; restocking increments
its `currentSupply` after an exhaustion guard and saves a fresh instance
document snapshotting the updated supply numbers.

The user route `POST /api/user/claim-daily-pack` (src/unnamed/part_003,
lines 448-486) implements the daily claim: a strict 24-hour cooldown check
on `user.lastPackClaimed`, a uniform random pick over `Card.find({})`
(the whole collection), `+50` currency, `lastPackClaimed = now`, and an
inventory update on the user document (`{cardId, quantity}` entries).

Timestamps are modelled as integer milliseconds; `Math.floor(Math.random()
* allCards.length)` is modelled by a natural-number draw `pick`, reduced
`mod` the list length so that the function is total (for `pick <
allCards.length` the reduction is the identity, matching the range of the
JavaScript expression).
-/

namespace Maelmon

/-- A document of the `Card` collection, after the schema of
src/unnamed/part_000 lines 28-43 (`_id` is modelled as a `Nat`).  The
claim route of src/unnamed/part_003 reads only `_id`, `name` and the
supply fields, so the same record type serves both routes. -/
structure Card where
  id : Nat
  name : String
  type : String
  attack : Int
  defense : Int
  characterImageUrl : String
  backgroundImageUrl : String
  rarity : String
  maxSupply : Int
  currentSupply : Int
  ownerId : Option String
deriving DecidableEq, Repr

/-- An entry of `user.cards` (src/unnamed/part_003 lines 297-300):
`{ cardId, quantity }`. -/
structure InvEntry where
  cardId : Nat
  quantity : Int
deriving DecidableEq, Repr

/-- The fields of the `User` document that the claim route touches
(src/unnamed/part_003 lines 289-301). -/
structure ClaimUser where
  currency : Int
  lastPackClaimed : Option Int
  cards : List InvEntry
deriving DecidableEq, Repr

/-- `DAILY_PACK_COOLDOWN_MS = 24 * 60 * 60 * 1000` (part_003 line 451). -/
def DAILY_PACK_COOLDOWN_MS : Int := 24 * 60 * 60 * 1000

/-- The cooldown test of part_003 line 453:
`user.lastPackClaimed && (now.getTime() - user.lastPackClaimed.getTime()) <
DAILY_PACK_COOLDOWN_MS` (a `Date` object is always truthy, so the first
conjunct is exactly non-nullness). -/
def cooldownActive (u : ClaimUser) (now : Int) : Bool :=
  match u.lastPackClaimed with
  | none => false
  | some t => now - t < DAILY_PACK_COOLDOWN_MS

/-- `user.cards.findIndex(c => c.cardId.equals(randomCard._id))` followed by
`quantity += 1` on the found entry (part_003 lines 470-472): increment the
first entry whose `cardId` matches, leave the rest unchanged. -/
def bumpFirst (inv : List InvEntry) (cid : Nat) : List InvEntry :=
  match inv with
  | [] => []
  | e :: rest =>
      if e.cardId == cid then { e with quantity := e.quantity + 1 } :: rest
      else e :: bumpFirst rest cid

/-- The inventory update of part_003 lines 470-476: if some entry matches
the drawn card's id, bump its quantity, else push `{cardId, quantity: 1}`. -/
def addCardToInventory (inv : List InvEntry) (cid : Nat) : List InvEntry :=
  if inv.any (fun c => c.cardId == cid) then bumpFirst inv cid
  else inv ++ [⟨cid, 1⟩]

/-- The quantity of card `cid` held in an inventory: the `quantity` of the
first entry whose `cardId` matches, or `0` when there is none (the reading
the `findIndex` of part_003 line 470 gives the inventory). -/
def qtyOf (inv : List InvEntry) (cid : Nat) : Int :=
  match inv.find? (fun e => e.cardId == cid) with
  | some e => e.quantity
  | none => 0

/-- Result of one call of `POST /api/user/claim-daily-pack`: HTTP status,
response message, the user document after the route ran (the route's only
`save()` is `user.save()`), the card collection after the route ran, and
the granted card, if any. -/
structure ClaimOutcome where
  status : Nat
  message : String
  user : ClaimUser
  cards : List Card
  granted : Option Card
deriving DecidableEq, Repr

/-- The route handler of `POST /api/user/claim-daily-pack`
(src/unnamed/part_003 lines 448-486).  `allCards` is the result of
`Card.find({})`; `pick` stands for `Math.floor(Math.random() *
allCards.length)`.  `allCards.get? (pick % allCards.length)` is `none`
exactly when `allCards.length === 0`, reproducing the emptiness check of
lines 460-462 and the indexing of line 463 in one step. -/
def claimDailyPack (u : ClaimUser) (allCards : List Card) (now : Int)
    (pick : Nat) : ClaimOutcome :=
  if cooldownActive u now then
    ⟨400, "Daily pack already claimed. Please wait.", u, allCards, none⟩
  else
    match allCards.get? (pick % allCards.length) with
    | none => ⟨500, "No cards available to claim.", u, allCards, none⟩
    | some randomCard =>
        let u1 : ClaimUser :=
          { currency := u.currency + 50
            lastPackClaimed := some now
            cards := addCardToInventory u.cards randomCard.id }
        ⟨200, "You claimed your daily pack and received " ++ randomCard.name
              ++ " and 50 currency!", u1, allCards, some randomCard⟩

/-- Modelled from the spec: `listEligibleDefinitions` returns all
definitions where `maxSupply == -1 OR currentSupply < maxSupply`
(spec.md section 4.1).  Stated here only to compare the code's selection
against the spec's eligible set; the route itself has no such filter. -/
def specEligible (c : Card) : Bool :=
  c.maxSupply == -1 || c.currentSupply < c.maxSupply

/-- Request body of `POST /api/admin/cards` (src/unnamed/part_000 lines
156-165); `maxSupply = none` models an absent (`undefined`/`null`) field. -/
structure AddCardReq where
  name : String
  type : String
  attack : Int
  defense : Int
  characterImageUrl : String
  backgroundImageUrl : String
  rarity : String
  maxSupply : Option Int
deriving DecidableEq, Repr

/-- The required-field check of part_000 line 167
(`!name || !type || !attack || !defense || !characterImageUrl ||
!backgroundImageUrl || !rarity`): JavaScript falsiness is the empty string
for the string fields and `0` for the numeric fields. -/
def missingFields (req : AddCardReq) : Bool :=
  req.name == "" || req.type == "" || req.attack == 0 || req.defense == 0
    || req.characterImageUrl == "" || req.backgroundImageUrl == ""
    || req.rarity == ""

/-- `finalMaxSupply` of part_000 lines 177-183: `-1` when the field is
absent, else the supplied value. -/
def finalMaxSupply (req : AddCardReq) : Int :=
  match req.maxSupply with
  | none => -1
  | some m => m

/-- `Card.findOne({ name, type, rarity, ownerId: null })` (part_000 line
185): the first card document matching the triple with a null owner. -/
def findDefinition (cards : List Card) (n t r : String) : Option Card :=
  cards.find? fun c =>
    c.name == n && c.type == t && c.rarity == r && c.ownerId == none

/-- The exhaustion guard of part_000 line 190:
`maxSupply !== -1 && currentSupply >= maxSupply`. -/
def exhausted (c : Card) : Bool :=
  c.maxSupply != -1 && c.currentSupply >= c.maxSupply

/-- `existingCardDefinition.save()` after the in-place mutation: every
document with the definition's `_id` is replaced by the updated record. -/
def updateCard (cards : List Card) (cid : Nat) (c1 : Card) : List Card :=
  cards.map fun c => if c.id == cid then c1 else c

/-- Result of one call of `POST /api/admin/cards`: HTTP status, response
message, the card collection after the route ran, and the saved card
instance, if any. -/
structure AdminOutcome where
  status : Nat
  message : String
  cards : List Card
  saved : Option Card
deriving DecidableEq, Repr

/-- The route handler of `POST /api/admin/cards` (src/unnamed/part_000
lines 154-232).  `newId` models the fresh `_id` MongoDB assigns to the
saved instance document. -/
def addCard (cards : List Card) (req : AddCardReq) (newId : Nat) :
    AdminOutcome :=
  if missingFields req then
    ⟨400, "Alle verplichte kaartvelden moeten worden ingevuld.", cards, none⟩
  else if finalMaxSupply req < -1 then
    ⟨400, "Max Supply kan niet negatief zijn (behalve -1 voor onbeperkt).",
      cards, none⟩
  else
    match findDefinition cards req.name req.type req.rarity with
    | some d =>
        if exhausted d then
          ⟨400, "Maximum aantal van deze kaartdefinitie (\"" ++ req.name
                ++ "\" - " ++ req.rarity ++ ") is bereikt.", cards, none⟩
        else
          let d1 : Card := { d with currentSupply := d.currentSupply + 1 }
          let inst : Card :=
            { id := newId, name := req.name, type := req.type
              attack := req.attack, defense := req.defense
              characterImageUrl := req.characterImageUrl
              backgroundImageUrl := req.backgroundImageUrl
              rarity := req.rarity
              maxSupply := d.maxSupply
              currentSupply := d.currentSupply + 1
              ownerId := none }
          ⟨201, "Kaart succesvol toegevoegd.",
            updateCard cards d.id d1 ++ [inst], some inst⟩
    | none =>
        let inst : Card :=
          { id := newId, name := req.name, type := req.type
            attack := req.attack, defense := req.defense
            characterImageUrl := req.characterImageUrl
            backgroundImageUrl := req.backgroundImageUrl
            rarity := req.rarity
            maxSupply := finalMaxSupply req
            currentSupply := 1
            ownerId := none }
        ⟨201, "Kaart succesvol toegevoegd.", cards ++ [inst], some inst⟩

/-- States of the card collection reachable from the empty catalog by any
sequence of admin add-card calls and daily-pack claims. -/
inductive Reachable : List Card → Prop
  | init : Reachable []
  | admin (cards : List Card) (req : AddCardReq) (newId : Nat) :
      Reachable cards → Reachable (addCard cards req newId).cards
  | claim (cards : List Card) (u : ClaimUser) (now : Int) (pick : Nat) :
      Reachable cards → Reachable (claimDailyPack u cards now pick).cards

/-! Concrete sample data used by witnesses and counterexamples. -/

/-- A card definition exhausted at its cap: `maxSupply = 1`,
`currentSupply = 1`. -/
def cardExh : Card :=
  ⟨0, "Dragon", "Monster", 5, 5, "img", "bg", "Rare", 1, 1, none⟩

/-- A card definition with remaining supply: `maxSupply = 5`,
`currentSupply = 0`. -/
def cardA : Card :=
  ⟨1, "Slime", "Monster", 1, 2, "img", "bg", "Common", 5, 0, none⟩

/-- A user who never claimed a pack. -/
def userFresh : ClaimUser := ⟨0, none, []⟩

/-- An admin request creating a brand-new definition with
`maxSupply = 0`. -/
def reqZero : AddCardReq :=
  ⟨"A", "Monster", 1, 1, "u", "v", "Common", some 0⟩

/-- The card record the admin route saves for `reqZero` on an empty
catalog: `maxSupply = 0` with `currentSupply = 1`. -/
def cardZero : Card :=
  ⟨0, "A", "Monster", 1, 1, "u", "v", "Common", 0, 1, none⟩

/-! Branch lemmas for the claim route. -/

theorem claimDailyPack_of_cooldown (u : ClaimUser) (cs : List Card)
    (now : Int) (pick : Nat) (h : cooldownActive u now = true) :
    claimDailyPack u cs now pick =
      ⟨400, "Daily pack already claimed. Please wait.", u, cs, none⟩ := by
  simp [claimDailyPack, h]

theorem claimDailyPack_of_empty (u : ClaimUser) (cs : List Card)
    (now : Int) (pick : Nat) (h : cooldownActive u now = false)
    (he : cs.get? (pick % cs.length) = none) :
    claimDailyPack u cs now pick =
      ⟨500, "No cards available to claim.", u, cs, none⟩ := by
  rw [List.get?_eq_getElem?] at he
  simp [claimDailyPack, h, he]

theorem claimDailyPack_of_pick (u : ClaimUser) (cs : List Card)
    (now : Int) (pick : Nat) (c : Card) (h : cooldownActive u now = false)
    (hg : cs.get? (pick % cs.length) = some c) :
    claimDailyPack u cs now pick =
      ⟨200, "You claimed your daily pack and received " ++ c.name
            ++ " and 50 currency!",
        ⟨u.currency + 50, some now, addCardToInventory u.cards c.id⟩,
        cs, some c⟩ := by
  rw [List.get?_eq_getElem?] at hg
  simp [claimDailyPack, h, hg]

theorem claimDailyPack_cards_eq (u : ClaimUser) (cs : List Card)
    (now : Int) (pick : Nat) : (claimDailyPack u cs now pick).cards = cs := by
  unfold claimDailyPack
  split
  · rfl
  · split <;> rfl

theorem cooldownActive_iff (u : ClaimUser) (now : Int) :
    cooldownActive u now = true ↔
      ∃ t, u.lastPackClaimed = some t ∧ now - t < DAILY_PACK_COOLDOWN_MS := by
  unfold cooldownActive
  cases h : u.lastPackClaimed with
  | none => simp
  | some t => simp

theorem claimDailyPack_status_eq_400_iff (u : ClaimUser) (cs : List Card)
    (now : Int) (pick : Nat) :
    (claimDailyPack u cs now pick).status = 400 ↔
      cooldownActive u now = true := by
  constructor
  · intro hst
    by_contra hcd
    rw [Bool.not_eq_true] at hcd
    cases hg : cs.get? (pick % cs.length) with
    | none => rw [claimDailyPack_of_empty u cs now pick hcd hg] at hst; simp at hst
    | some c => rw [claimDailyPack_of_pick u cs now pick c hcd hg] at hst; simp at hst
  · intro hcd
    rw [claimDailyPack_of_cooldown u cs now pick hcd]

/-- C4: the claim is rejected for cooldown exactly when `lastPackClaimed`
is non-null and less than 24 hours (`DAILY_PACK_COOLDOWN_MS`) before
`now`; with `lastPackClaimed = null` the claim is never rejected for
cooldown; and a successful claim stamps `lastPackClaimed = now`
(src/unnamed/part_003 lines 453-467). -/
theorem C4_cooldown_exact (u : ClaimUser) (cs : List Card) (now : Int)
    (pick : Nat) :
    ((claimDailyPack u cs now pick).status = 400 ↔
      ∃ t, u.lastPackClaimed = some t ∧ now - t < DAILY_PACK_COOLDOWN_MS)
    ∧ (u.lastPackClaimed = none →
        (claimDailyPack u cs now pick).status ≠ 400)
    ∧ ((claimDailyPack u cs now pick).status = 200 →
        (claimDailyPack u cs now pick).user.lastPackClaimed = some now) := by
  refine ⟨(claimDailyPack_status_eq_400_iff u cs now pick).trans
    (cooldownActive_iff u now), ?_, ?_⟩
  · intro hnone hst
    rcases ((claimDailyPack_status_eq_400_iff u cs now pick).mp hst
        |> (cooldownActive_iff u now).mp) with ⟨t, ht, _⟩
    rw [hnone] at ht
    exact Option.noConfusion ht
  · intro hst
    by_cases hcd : cooldownActive u now
    · rw [claimDailyPack_of_cooldown u cs now pick hcd] at hst
      simp at hst
    · rw [Bool.not_eq_true] at hcd
      cases hg : cs.get? (pick % cs.length) with
      | none =>
          rw [claimDailyPack_of_empty u cs now pick hcd hg] at hst
          simp at hst
      | some c =>
          rw [claimDailyPack_of_pick u cs now pick c hcd hg]

/-- C4 witness: a fresh user (null `lastPackClaimed`) claiming over a
one-card catalog. -/
theorem C4_cooldown_exact_witness :
    ((claimDailyPack userFresh [cardA] 0 0).status = 400 ↔
      ∃ t, userFresh.lastPackClaimed = some t ∧
        (0 : Int) - t < DAILY_PACK_COOLDOWN_MS)
    ∧ (userFresh.lastPackClaimed = none →
        (claimDailyPack userFresh [cardA] 0 0).status ≠ 400)
    ∧ ((claimDailyPack userFresh [cardA] 0 0).status = 200 →
        (claimDailyPack userFresh [cardA] 0 0).user.lastPackClaimed =
          some 0) :=
  C4_cooldown_exact userFresh [cardA] 0 0

/-- C5: whenever the claim route returns an error (cooldown active or no
card available), neither the user document nor the card collection is
written: the route returns before any mutation (src/unnamed/part_003
lines 453-462). -/
theorem C5_error_no_mutation (u : ClaimUser) (cs : List Card) (now : Int)
    (pick : Nat) (h : (claimDailyPack u cs now pick).status ≠ 200) :
    (claimDailyPack u cs now pick).user = u
    ∧ (claimDailyPack u cs now pick).cards = cs := by
  by_cases hcd : cooldownActive u now
  · rw [claimDailyPack_of_cooldown u cs now pick hcd]
    exact ⟨rfl, rfl⟩
  · rw [Bool.not_eq_true] at hcd
    cases hg : cs.get? (pick % cs.length) with
    | none =>
        rw [claimDailyPack_of_empty u cs now pick hcd hg]
        exact ⟨rfl, rfl⟩
    | some c =>
        rw [claimDailyPack_of_pick u cs now pick c hcd hg] at h
        simp at h

/-- C5 witness: a user one hour into the cooldown window is rejected and
left unchanged. -/
theorem C5_error_no_mutation_witness :
    (claimDailyPack ⟨0, some 0, []⟩ [cardA] 3600000 0).user = ⟨0, some 0, []⟩
    ∧ (claimDailyPack ⟨0, some 0, []⟩ [cardA] 3600000 0).cards = [cardA] :=
  C5_error_no_mutation ⟨0, some 0, []⟩ [cardA] 3600000 0 (by decide)

/-- C7 counterexample: the claim states the cooldown rejection carries the
remaining time; in the code the rejection body is the constant string
`"Daily pack already claimed. Please wait."` (part_003 line 454), so two
rejections with different remaining times (23 h and 1 h) have identical
responses and carry no remaining time. -/
theorem C7_counterexample :
    (claimDailyPack ⟨0, some 0, []⟩ [cardA] 3600000 0).message =
      (claimDailyPack ⟨0, some 0, []⟩ [cardA] 82800000 0).message
    ∧ (claimDailyPack ⟨0, some 0, []⟩ [cardA] 3600000 0).status = 400
    ∧ (claimDailyPack ⟨0, some 0, []⟩ [cardA] 82800000 0).status = 400
    ∧ DAILY_PACK_COOLDOWN_MS - (3600000 - 0) ≠
        DAILY_PACK_COOLDOWN_MS - (82800000 - 0) := by
  decide

/-- C7 amended: when the claim is rejected for an active cooldown, the
response is status 400 with the fixed message `"Daily pack already
claimed. Please wait."`, carrying no remaining-time information. -/
theorem C7_fixed_message (u : ClaimUser) (cs : List Card) (now : Int)
    (pick : Nat) (h : cooldownActive u now = true) :
    (claimDailyPack u cs now pick).status = 400
    ∧ (claimDailyPack u cs now pick).message =
        "Daily pack already claimed. Please wait." := by
  rw [claimDailyPack_of_cooldown u cs now pick h]
  exact ⟨rfl, rfl⟩

/-- C7 witness: a user one hour into the window. -/
theorem C7_fixed_message_witness :
    (claimDailyPack ⟨0, some 0, []⟩ [cardA] 3600000 0).status = 400
    ∧ (claimDailyPack ⟨0, some 0, []⟩ [cardA] 3600000 0).message =
        "Daily pack already claimed. Please wait." :=
  C7_fixed_message ⟨0, some 0, []⟩ [cardA] 3600000 0 (by decide)

/-- C9: the cooldown comparison of part_003 line 453 is strict (`<`):
with `lastPackClaimed = some t`, the claim is rejected iff
`now - t < DAILY_PACK_COOLDOWN_MS`; at exactly the window boundary
(`now - t = DAILY_PACK_COOLDOWN_MS`) it proceeds. -/
theorem C9_strict_cooldown (u : ClaimUser) (cs : List Card) (now t : Int)
    (pick : Nat) (h : u.lastPackClaimed = some t) :
    ((claimDailyPack u cs now pick).status = 400 ↔
      now - t < DAILY_PACK_COOLDOWN_MS)
    ∧ (now - t = DAILY_PACK_COOLDOWN_MS →
        (claimDailyPack u cs now pick).status ≠ 400) := by
  have hiff : (claimDailyPack u cs now pick).status = 400 ↔
      now - t < DAILY_PACK_COOLDOWN_MS := by
    rw [claimDailyPack_status_eq_400_iff, cooldownActive_iff]
    constructor
    · rintro ⟨t', ht', hlt⟩
      rw [h] at ht'
      cases ht'
      exact hlt
    · intro hlt
      exact ⟨t, h, hlt⟩
  refine ⟨hiff, ?_⟩
  intro heq hst
  exact absurd (hiff.mp hst) (by rw [heq]; exact lt_irrefl _)

/-- C9 witness: a claim exactly 24 hours after the previous one succeeds
(status 200, not 400). -/
theorem C9_strict_cooldown_witness :
    ((claimDailyPack ⟨0, some 0, []⟩ [cardA] DAILY_PACK_COOLDOWN_MS 0).status
        = 400 ↔
      DAILY_PACK_COOLDOWN_MS - 0 < DAILY_PACK_COOLDOWN_MS)
    ∧ (DAILY_PACK_COOLDOWN_MS - 0 = DAILY_PACK_COOLDOWN_MS →
        (claimDailyPack ⟨0, some 0, []⟩ [cardA] DAILY_PACK_COOLDOWN_MS
            0).status ≠ 400) :=
  C9_strict_cooldown ⟨0, some 0, []⟩ [cardA] DAILY_PACK_COOLDOWN_MS 0 0 rfl

/-- C2 counterexample: the claim states an exhausted definition is never
chosen; the route draws from `Card.find({})` with no eligibility filter
(part_003 lines 459-463), so over the catalog `[cardExh]` (exhausted:
`currentSupply = maxSupply = 1`) the claim grants `cardExh` even though
the spec's eligible set excludes it. -/
theorem C2_counterexample :
    (claimDailyPack userFresh [cardExh] 0 0).granted = some cardExh
    ∧ specEligible cardExh = false
    ∧ (claimDailyPack userFresh [cardExh] 0 0).status = 200 := by
  decide

/-- C2 amended: the selection is uniform over the entire raw card list,
not over the eligible set: for every draw `pick` in `[0, length)`, the
granted card is exactly the list element at index `pick` (one index per
element), whether or not it is exhausted. -/
theorem C2_uniform_over_all (u : ClaimUser) (cs : List Card) (now : Int)
    (pick : Nat) (h : cooldownActive u now = false) (hp : pick < cs.length) :
    (claimDailyPack u cs now pick).granted = cs.get? pick
    ∧ (claimDailyPack u cs now pick).status = 200 := by
  have hm : pick % cs.length = pick := Nat.mod_eq_of_lt hp
  cases hg : cs.get? pick with
  | none =>
      rw [List.get?_eq_none] at hg
      omega
  | some c =>
      rw [claimDailyPack_of_pick u cs now pick c h (by rw [hm]; exact hg)]
      exact ⟨rfl, rfl⟩

/-- C2 witness: drawing index 0 over a one-card catalog grants that
card. -/
theorem C2_uniform_over_all_witness :
    (claimDailyPack userFresh [cardExh] 0 0).granted = [cardExh].get? 0
    ∧ (claimDailyPack userFresh [cardExh] 0 0).status = 200 :=
  C2_uniform_over_all userFresh [cardExh] 0 0 (by decide) (by decide)

/-- C6 counterexample: the claim states that a non-empty raw list whose
definitions are all exhausted yields `NoEligibleCardsError` and no mint;
the route only checks `allCards.length === 0` (part_003 line 460), so over
the non-empty all-exhausted catalog `[cardExh]` the claim succeeds and
grants a card. -/
theorem C6_counterexample :
    ([cardExh].filter specEligible = [])
    ∧ ([cardExh] ≠ ([] : List Card))
    ∧ (claimDailyPack userFresh [cardExh] 0 0).status = 200
    ∧ (claimDailyPack userFresh [cardExh] 0 0).granted ≠ none := by
  decide

/-- C6 amended: (absent a cooldown rejection) the no-cards error — status
500 with message `"No cards available to claim."` — is returned iff the
raw card list is empty; exhausted definitions are not filtered out, so any
non-empty list produces a grant instead. -/
theorem C6_error_iff_raw_empty (u : ClaimUser) (cs : List Card) (now : Int)
    (pick : Nat) (h : cooldownActive u now = false) :
    ((claimDailyPack u cs now pick).status = 500 ∧
      (claimDailyPack u cs now pick).message = "No cards available to claim.")
    ↔ cs = [] := by
  constructor
  · rintro ⟨hst, -⟩
    by_contra hne
    have hlen : 0 < cs.length := List.length_pos.mpr hne
    have hlt : pick % cs.length < cs.length := Nat.mod_lt _ hlen
    cases hg : cs.get? (pick % cs.length) with
    | none =>
        rw [List.get?_eq_none] at hg
        omega
    | some c =>
        rw [claimDailyPack_of_pick u cs now pick c h hg] at hst
        simp at hst
  · rintro rfl
    rw [claimDailyPack_of_empty u [] now pick h (by simp)]
    exact ⟨rfl, rfl⟩

/-- C6 witness: an empty catalog yields the no-cards error. -/
theorem C6_error_iff_raw_empty_witness :
    ((claimDailyPack userFresh [] 0 0).status = 500 ∧
      (claimDailyPack userFresh [] 0 0).message =
        "No cards available to claim.")
    ↔ ([] : List Card) = [] :=
  C6_error_iff_raw_empty userFresh [] 0 0 (by decide)

/-- C8: an admin add-card call whose `(name, type, rarity)` triple matches
an existing definition (and passes the field validation of part_000 lines
167-183): if the definition is not exhausted (in the sense tested at line
190, `maxSupply !== -1 && currentSupply >= maxSupply`), its
`currentSupply` is incremented by exactly 1 and a new instance document is
saved snapshotting the definition's `maxSupply` and the updated
`currentSupply`; if it is exhausted, the call fails with status 400 and
the collection is unchanged. -/
theorem C8_restock (cards : List Card) (req : AddCardReq) (newId : Nat)
    (d : Card) (hv : missingFields req = false)
    (hm : ¬ finalMaxSupply req < -1)
    (hf : findDefinition cards req.name req.type req.rarity = some d) :
    (exhausted d = false →
      (addCard cards req newId).status = 201
      ∧ { d with currentSupply := d.currentSupply + 1 } ∈
          (addCard cards req newId).cards
      ∧ ∃ inst, (addCard cards req newId).saved = some inst
          ∧ inst.maxSupply = d.maxSupply
          ∧ inst.currentSupply = d.currentSupply + 1
          ∧ inst ∈ (addCard cards req newId).cards)
    ∧ (exhausted d = true →
      (addCard cards req newId).status = 400
      ∧ (addCard cards req newId).cards = cards) := by
  have hd : d ∈ cards := List.mem_of_find?_eq_some hf
  constructor
  · intro hx
    have hred : addCard cards req newId =
        ⟨201, "Kaart succesvol toegevoegd.",
          updateCard cards d.id { d with currentSupply := d.currentSupply + 1 }
            ++ [{ id := newId, name := req.name, type := req.type,
                  attack := req.attack, defense := req.defense,
                  characterImageUrl := req.characterImageUrl,
                  backgroundImageUrl := req.backgroundImageUrl,
                  rarity := req.rarity, maxSupply := d.maxSupply,
                  currentSupply := d.currentSupply + 1, ownerId := none }],
          some { id := newId, name := req.name, type := req.type,
                 attack := req.attack, defense := req.defense,
                 characterImageUrl := req.characterImageUrl,
                 backgroundImageUrl := req.backgroundImageUrl,
                 rarity := req.rarity, maxSupply := d.maxSupply,
                 currentSupply := d.currentSupply + 1, ownerId := none }⟩ := by
      unfold addCard
      rw [hv]
      simp only [Bool.false_eq_true, if_false, if_neg hm, hf, hx]
    rw [hred]
    refine ⟨rfl, ?_, ?_⟩
    · apply List.mem_append_left
      have hmem := List.mem_map_of_mem
        (fun c => if c.id == d.id then
          { d with currentSupply := d.currentSupply + 1 } else c) hd
      simpa [updateCard] using hmem
    · exact ⟨_, rfl, rfl, rfl, List.mem_append_right _ (List.mem_singleton.mpr rfl)⟩
  · intro hx
    have hred : addCard cards req newId =
        ⟨400, "Maximum aantal van deze kaartdefinitie (\"" ++ req.name
              ++ "\" - " ++ req.rarity ++ ") is bereikt.", cards, none⟩ := by
      unfold addCard
      rw [hv]
      simp only [Bool.false_eq_true, if_false, if_neg hm, hf, hx, if_true]
    rw [hred]
    exact ⟨rfl, rfl⟩

/-- C8 witness: restocking the one-card catalog `[cardA]`
(`currentSupply = 0`, `maxSupply = 5`) with a matching request. -/
theorem C8_restock_witness :
    (exhausted cardA = false →
      (addCard [cardA] ⟨"Slime", "Monster", 1, 2, "u", "v", "Common", none⟩
          7).status = 201
      ∧ { cardA with currentSupply := cardA.currentSupply + 1 } ∈
          (addCard [cardA]
            ⟨"Slime", "Monster", 1, 2, "u", "v", "Common", none⟩ 7).cards
      ∧ ∃ inst, (addCard [cardA]
            ⟨"Slime", "Monster", 1, 2, "u", "v", "Common", none⟩ 7).saved
              = some inst
          ∧ inst.maxSupply = cardA.maxSupply
          ∧ inst.currentSupply = cardA.currentSupply + 1
          ∧ inst ∈ (addCard [cardA]
              ⟨"Slime", "Monster", 1, 2, "u", "v", "Common", none⟩ 7).cards)
    ∧ (exhausted cardA = true →
      (addCard [cardA] ⟨"Slime", "Monster", 1, 2, "u", "v", "Common", none⟩
          7).status = 400
      ∧ (addCard [cardA]
          ⟨"Slime", "Monster", 1, 2, "u", "v", "Common", none⟩ 7).cards
            = [cardA]) :=
  C8_restock [cardA] ⟨"Slime", "Monster", 1, 2, "u", "v", "Common", none⟩ 7
    cardA (by decide) (by decide) (by decide)

/-! Inventory lemmas. -/

theorem bumpFirst_cons_pos (e : InvEntry) (rest : List InvEntry) (cid : Nat)
    (h : (e.cardId == cid) = true) :
    bumpFirst (e :: rest) cid = { e with quantity := e.quantity + 1 } :: rest := by
  simp [bumpFirst, h]

theorem bumpFirst_cons_neg (e : InvEntry) (rest : List InvEntry) (cid : Nat)
    (h : (e.cardId == cid) = false) :
    bumpFirst (e :: rest) cid = e :: bumpFirst rest cid := by
  simp [bumpFirst, h]

theorem qtyOf_cons_pos (e : InvEntry) (rest : List InvEntry) (cid : Nat)
    (h : (e.cardId == cid) = true) :
    qtyOf (e :: rest) cid = e.quantity := by
  simp [qtyOf, h]

theorem qtyOf_cons_neg (e : InvEntry) (rest : List InvEntry) (cid : Nat)
    (h : (e.cardId == cid) = false) :
    qtyOf (e :: rest) cid = qtyOf rest cid := by
  simp [qtyOf, h]

theorem bumpFirst_map_cardId (inv : List InvEntry) (cid : Nat) :
    (bumpFirst inv cid).map InvEntry.cardId = inv.map InvEntry.cardId := by
  induction inv with
  | nil => rfl
  | cons e rest ih =>
      cases he : (e.cardId == cid) with
      | true => rw [bumpFirst_cons_pos e rest cid he]; simp
      | false => rw [bumpFirst_cons_neg e rest cid he]; simp [ih]

theorem qtyOf_bumpFirst (inv : List InvEntry) (cid : Nat)
    (h : inv.any (fun e => e.cardId == cid) = true) :
    qtyOf (bumpFirst inv cid) cid = qtyOf inv cid + 1 := by
  induction inv with
  | nil => simp at h
  | cons e rest ih =>
      cases he : (e.cardId == cid) with
      | true =>
          rw [bumpFirst_cons_pos e rest cid he,
            qtyOf_cons_pos _ _ _ (by simpa using he), qtyOf_cons_pos _ _ _ he]
      | false =>
          rw [bumpFirst_cons_neg e rest cid he, qtyOf_cons_neg _ _ _ he,
            qtyOf_cons_neg _ _ _ he]
          apply ih
          simpa [List.any_cons, he] using h

theorem qtyOf_addCardToInventory (inv : List InvEntry) (cid : Nat) :
    qtyOf (addCardToInventory inv cid) cid = qtyOf inv cid + 1 := by
  cases hany : inv.any (fun e => e.cardId == cid) with
  | true =>
      unfold addCardToInventory
      rw [hany]
      simpa using qtyOf_bumpFirst inv cid hany
  | false =>
      unfold addCardToInventory
      rw [hany]
      have hn : inv.find? (fun e => e.cardId == cid) = none := by
        rw [List.find?_eq_none]
        intro x hx
        have := List.any_eq_false.mp hany x hx
        simpa using this
      simp [qtyOf, List.find?_append, hn]

theorem nodup_addCardToInventory (inv : List InvEntry) (cid : Nat)
    (hnd : (inv.map InvEntry.cardId).Nodup) :
    ((addCardToInventory inv cid).map InvEntry.cardId).Nodup := by
  cases hany : inv.any (fun e => e.cardId == cid) with
  | true =>
      unfold addCardToInventory
      rw [hany]
      simpa [bumpFirst_map_cardId] using hnd
  | false =>
      unfold addCardToInventory
      rw [hany]
      simp only [Bool.false_eq_true, if_false, List.map_append, List.map_cons,
        List.map_nil]
      rw [List.nodup_append]
      refine ⟨hnd, List.nodup_singleton _, ?_⟩
      intro a ha hb
      simp only [List.mem_singleton] at hb
      subst hb
      rcases List.mem_map.mp ha with ⟨e, he, hee⟩
      have hne := List.any_eq_false.mp hany e he
      simp [hee] at hne

theorem filter_bumpFirst_ne (inv : List InvEntry) (cid x : Nat) (hx : x ≠ cid) :
    (bumpFirst inv cid).filter (fun e => e.cardId == x)
      = inv.filter (fun e => e.cardId == x) := by
  induction inv with
  | nil => rfl
  | cons e rest ih =>
      cases he : (e.cardId == cid) with
      | true =>
          rw [bumpFirst_cons_pos e rest cid he]
          have hcid : e.cardId = cid := by simpa using he
          have hne : (e.cardId == x) = false := by
            simp [hcid]
            exact fun hxx => hx hxx.symm
          simp [List.filter_cons, hne]
      | false =>
          rw [bumpFirst_cons_neg e rest cid he]
          simp [List.filter_cons, ih]

theorem filter_addCardToInventory_ne (inv : List InvEntry) (cid x : Nat)
    (hx : x ≠ cid) :
    (addCardToInventory inv cid).filter (fun e => e.cardId == x)
      = inv.filter (fun e => e.cardId == x) := by
  cases hany : inv.any (fun e => e.cardId == cid) with
  | true =>
      unfold addCardToInventory
      rw [hany]
      simpa using filter_bumpFirst_ne inv cid x hx
  | false =>
      unfold addCardToInventory
      rw [hany]
      have hne : ((⟨cid, 1⟩ : InvEntry).cardId == x) = false := by
        simp
        exact fun hxx => hx hxx.symm
      simp [List.filter_append, hne]

theorem claimDailyPack_granted_some (u : ClaimUser) (cs : List Card)
    (now : Int) (pick : Nat) (c : Card)
    (hg : (claimDailyPack u cs now pick).granted = some c) :
    cooldownActive u now = false
    ∧ cs.get? (pick % cs.length) = some c
    ∧ (claimDailyPack u cs now pick).user =
        ⟨u.currency + 50, some now, addCardToInventory u.cards c.id⟩ := by
  by_cases hcd : cooldownActive u now
  · rw [claimDailyPack_of_cooldown u cs now pick hcd] at hg
    simp at hg
  · rw [Bool.not_eq_true] at hcd
    cases hq : cs.get? (pick % cs.length) with
    | none =>
        rw [claimDailyPack_of_empty u cs now pick hcd hq] at hg
        simp at hg
    | some c2 =>
        rw [claimDailyPack_of_pick u cs now pick c2 hcd hq] at hg
        simp only [Option.some.injEq] at hg
        subst hg
        exact ⟨hcd, rfl, by rw [claimDailyPack_of_pick u cs now pick c2 hcd hq]⟩

/-- C3 counterexample: the claim states a successful claim increments the
chosen definition's `currentSupply` by 1 and mints an instance owned by
the user; the route (part_003 lines 457-481) performs neither write: after
a successful claim over `[cardA]` the card collection is unchanged and the
chosen card's `currentSupply` is still `0`, not `1`. -/
theorem C3_counterexample :
    (claimDailyPack userFresh [cardA] 0 0).status = 200
    ∧ (claimDailyPack userFresh [cardA] 0 0).granted = some cardA
    ∧ (claimDailyPack userFresh [cardA] 0 0).cards = [cardA]
    ∧ cardA.currentSupply = 0
    ∧ ¬ cardA.currentSupply + 1 = 0 := by
  decide

/-- C3 amended: a successful claim leaves the card collection (and so
every definition's `currentSupply`) unchanged and mints no instance
record; instead the granted card's id is recorded in the requesting
user's own inventory, whose quantity for that id rises by exactly 1. -/
theorem C3_no_supply_write (u : ClaimUser) (cs : List Card) (now : Int)
    (pick : Nat) (c : Card)
    (hg : (claimDailyPack u cs now pick).granted = some c) :
    (claimDailyPack u cs now pick).cards = cs
    ∧ qtyOf (claimDailyPack u cs now pick).user.cards c.id
        = qtyOf u.cards c.id + 1 := by
  rcases claimDailyPack_granted_some u cs now pick c hg with ⟨-, -, hu⟩
  refine ⟨claimDailyPack_cards_eq u cs now pick, ?_⟩
  rw [hu]
  exact qtyOf_addCardToInventory u.cards c.id

/-- C3 witness: a fresh user claiming over `[cardA]`. -/
theorem C3_no_supply_write_witness :
    (claimDailyPack userFresh [cardA] 0 0).cards = [cardA]
    ∧ qtyOf (claimDailyPack userFresh [cardA] 0 0).user.cards cardA.id
        = qtyOf userFresh.cards cardA.id + 1 :=
  C3_no_supply_write userFresh [cardA] 0 0 cardA (by decide)

/-- C10: a successful claim preserves the at-most-one-entry-per-card
invariant of the user's inventory (part_003 lines 470-476): the id list
stays duplicate-free, the drawn card's quantity rises by exactly 1, when
the drawn card was absent a single `{cardId, quantity: 1}` entry is
appended, and entries for every other card id are untouched. -/
theorem C10_inventory_invariant (u : ClaimUser) (cs : List Card) (now : Int)
    (pick : Nat) (c : Card)
    (hg : (claimDailyPack u cs now pick).granted = some c)
    (hnd : (u.cards.map InvEntry.cardId).Nodup) :
    ((claimDailyPack u cs now pick).user.cards.map InvEntry.cardId).Nodup
    ∧ qtyOf (claimDailyPack u cs now pick).user.cards c.id
        = qtyOf u.cards c.id + 1
    ∧ (u.cards.any (fun e => e.cardId == c.id) = false →
        (claimDailyPack u cs now pick).user.cards = u.cards ++ [⟨c.id, 1⟩])
    ∧ ∀ x, x ≠ c.id →
        (claimDailyPack u cs now pick).user.cards.filter
            (fun e => e.cardId == x)
          = u.cards.filter (fun e => e.cardId == x) := by
  rcases claimDailyPack_granted_some u cs now pick c hg with ⟨-, -, hu⟩
  rw [hu]
  refine ⟨nodup_addCardToInventory u.cards c.id hnd,
    qtyOf_addCardToInventory u.cards c.id, ?_, ?_⟩
  · intro habs
    unfold addCardToInventory
    rw [habs]
    simp
  · intro x hx
    exact filter_addCardToInventory_ne u.cards c.id x hx

/-- C10 witness: a user already holding one copy of `cardA` claims it
again: the entry's quantity becomes 2 and no duplicate entry appears. -/
theorem C10_inventory_invariant_witness :
    ((claimDailyPack ⟨0, none, [⟨cardA.id, 1⟩]⟩ [cardA] 0
        0).user.cards.map InvEntry.cardId).Nodup
    ∧ qtyOf (claimDailyPack ⟨0, none, [⟨cardA.id, 1⟩]⟩ [cardA] 0
          0).user.cards cardA.id
        = qtyOf [⟨cardA.id, 1⟩] cardA.id + 1
    ∧ (([⟨cardA.id, 1⟩] : List InvEntry).any
          (fun e => e.cardId == cardA.id) = false →
        (claimDailyPack ⟨0, none, [⟨cardA.id, 1⟩]⟩ [cardA] 0 0).user.cards
          = [⟨cardA.id, 1⟩] ++ [⟨cardA.id, 1⟩])
    ∧ ∀ x, x ≠ cardA.id →
        (claimDailyPack ⟨0, none, [⟨cardA.id, 1⟩]⟩ [cardA] 0
            0).user.cards.filter (fun e => e.cardId == x)
          = ([⟨cardA.id, 1⟩] : List InvEntry).filter
              (fun e => e.cardId == x) :=
  C10_inventory_invariant ⟨0, none, [⟨cardA.id, 1⟩]⟩ [cardA] 0 0 cardA
    (by decide) (by decide)

/-! Branch lemmas for the admin route, and the supply invariant. -/

theorem addCard_invalid (cards : List Card) (req : AddCardReq) (newId : Nat)
    (hv : missingFields req = true) :
    addCard cards req newId =
      ⟨400, "Alle verplichte kaartvelden moeten worden ingevuld.",
        cards, none⟩ := by
  simp [addCard, hv]

theorem addCard_badSupply (cards : List Card) (req : AddCardReq) (newId : Nat)
    (hv : missingFields req = false) (hm : finalMaxSupply req < -1) :
    addCard cards req newId =
      ⟨400, "Max Supply kan niet negatief zijn (behalve -1 voor onbeperkt).",
        cards, none⟩ := by
  unfold addCard
  rw [hv]
  simp only [Bool.false_eq_true, if_false, if_pos hm]

theorem addCard_new (cards : List Card) (req : AddCardReq) (newId : Nat)
    (hv : missingFields req = false) (hm : ¬ finalMaxSupply req < -1)
    (hf : findDefinition cards req.name req.type req.rarity = none) :
    addCard cards req newId =
      ⟨201, "Kaart succesvol toegevoegd.",
        cards ++ [{ id := newId, name := req.name, type := req.type,
                    attack := req.attack, defense := req.defense,
                    characterImageUrl := req.characterImageUrl,
                    backgroundImageUrl := req.backgroundImageUrl,
                    rarity := req.rarity, maxSupply := finalMaxSupply req,
                    currentSupply := 1, ownerId := none }],
        some { id := newId, name := req.name, type := req.type,
               attack := req.attack, defense := req.defense,
               characterImageUrl := req.characterImageUrl,
               backgroundImageUrl := req.backgroundImageUrl,
               rarity := req.rarity, maxSupply := finalMaxSupply req,
               currentSupply := 1, ownerId := none }⟩ := by
  unfold addCard
  rw [hv]
  simp only [Bool.false_eq_true, if_false, if_neg hm, hf]

theorem addCard_exhausted (cards : List Card) (req : AddCardReq) (newId : Nat)
    (d : Card) (hv : missingFields req = false)
    (hm : ¬ finalMaxSupply req < -1)
    (hf : findDefinition cards req.name req.type req.rarity = some d)
    (hx : exhausted d = true) :
    addCard cards req newId =
      ⟨400, "Maximum aantal van deze kaartdefinitie (\"" ++ req.name
            ++ "\" - " ++ req.rarity ++ ") is bereikt.", cards, none⟩ := by
  unfold addCard
  rw [hv]
  simp only [Bool.false_eq_true, if_false, if_neg hm, hf, hx, if_true]

theorem addCard_restock (cards : List Card) (req : AddCardReq) (newId : Nat)
    (d : Card) (hv : missingFields req = false)
    (hm : ¬ finalMaxSupply req < -1)
    (hf : findDefinition cards req.name req.type req.rarity = some d)
    (hx : exhausted d = false) :
    addCard cards req newId =
      ⟨201, "Kaart succesvol toegevoegd.",
        updateCard cards d.id { d with currentSupply := d.currentSupply + 1 }
          ++ [{ id := newId, name := req.name, type := req.type,
                attack := req.attack, defense := req.defense,
                characterImageUrl := req.characterImageUrl,
                backgroundImageUrl := req.backgroundImageUrl,
                rarity := req.rarity, maxSupply := d.maxSupply,
                currentSupply := d.currentSupply + 1, ownerId := none }],
        some { id := newId, name := req.name, type := req.type,
               attack := req.attack, defense := req.defense,
               characterImageUrl := req.characterImageUrl,
               backgroundImageUrl := req.backgroundImageUrl,
               rarity := req.rarity, maxSupply := d.maxSupply,
               currentSupply := d.currentSupply + 1, ownerId := none }⟩ := by
  unfold addCard
  rw [hv]
  simp only [Bool.false_eq_true, if_false, if_neg hm, hf, hx]

theorem reachable_cardZero : Reachable [cardZero] := by
  have h := Reachable.admin [] reqZero 0 Reachable.init
  have e : (addCard [] reqZero 0).cards = [cardZero] := by decide
  rwa [e] at h

/-- C1 counterexample: the claim states `currentSupply <= maxSupply` in
every reachable state; the admin route accepts `maxSupply = 0` for a
brand-new definition (only `< -1` is rejected, part_000 lines 177-183) and
creates it with `currentSupply: 1` (line 220), so one add-card call from
the empty catalog reaches a definition with `currentSupply = 1 >
maxSupply = 0`. -/
theorem C1_counterexample :
    Reachable [cardZero] ∧ cardZero.maxSupply ≠ -1
    ∧ ¬ cardZero.currentSupply ≤ cardZero.maxSupply :=
  ⟨reachable_cardZero, by decide, by decide⟩

/-- C1 amended: in every state reachable from the empty catalog by admin
add-card calls and daily-pack claims, every card record with
`maxSupply != -1` satisfies `currentSupply <= max maxSupply 1`: the cap is
respected whenever `maxSupply >= 1`, and the only excess is a brand-new
definition created with `maxSupply = 0`, which starts (and stays) at
`currentSupply = 1`.  Daily-pack claims never write the card
collection. -/
theorem C1_supply_invariant (s : List Card) (hs : Reachable s) :
    ∀ c ∈ s, c.maxSupply ≠ -1 → c.currentSupply ≤ max c.maxSupply 1 := by
  induction hs with
  | init =>
      intro c hc
      exact absurd hc (List.not_mem_nil c)
  | admin cards req newId hr ih =>
      intro c hc hcm
      by_cases hv : missingFields req = true
      · rw [addCard_invalid cards req newId hv] at hc
        exact ih c hc hcm
      · rw [Bool.not_eq_true] at hv
        by_cases hm : finalMaxSupply req < -1
        · rw [addCard_badSupply cards req newId hv hm] at hc
          exact ih c hc hcm
        · cases hf : findDefinition cards req.name req.type req.rarity with
          | none =>
              rw [addCard_new cards req newId hv hm hf] at hc
              rcases List.mem_append.mp hc with hc1 | hc2
              · exact ih c hc1 hcm
              · rw [List.mem_singleton] at hc2
                subst hc2
                exact le_max_right _ 1
          | some d =>
              cases hx : exhausted d with
              | true =>
                  rw [addCard_exhausted cards req newId d hv hm hf hx] at hc
                  exact ih c hc hcm
              | false =>
                  rw [addCard_restock cards req newId d hv hm hf hx] at hc
                  rcases List.mem_append.mp hc with hc1 | hc2
                  · rcases List.mem_map.mp hc1 with ⟨c0, hc0, hfc⟩
                    by_cases hid : (c0.id == d.id) = true
                    · rw [if_pos hid] at hfc
                      subst hfc
                      have hmax : d.maxSupply ≠ -1 := hcm
                      have hlt : d.currentSupply < d.maxSupply := by
                        by_contra hge
                        rw [not_lt] at hge
                        have hxt : exhausted d = true := by
                          simp [exhausted, hmax, hge]
                        rw [hxt] at hx
                        exact Bool.noConfusion hx
                      show d.currentSupply + 1 ≤ max d.maxSupply 1
                      exact le_trans (by omega) (le_max_left _ _)
                    · rw [if_neg hid] at hfc
                      subst hfc
                      exact ih c0 hc0 hcm
                  · rw [List.mem_singleton] at hc2
                    subst hc2
                    have hmax : d.maxSupply ≠ -1 := hcm
                    have hlt : d.currentSupply < d.maxSupply := by
                      by_contra hge
                      rw [not_lt] at hge
                      have hxt : exhausted d = true := by
                        simp [exhausted, hmax, hge]
                      rw [hxt] at hx
                      exact Bool.noConfusion hx
                    show d.currentSupply + 1 ≤ max d.maxSupply 1
                    exact le_trans (by omega) (le_max_left _ _)
  | claim cards u now pick hr ih =>
      intro c hc hcm
      rw [claimDailyPack_cards_eq u cards now pick] at hc
      exact ih c hc hcm

/-- C1 witness: the invariant evaluated at the reachable one-card state
`[cardZero]`. -/
theorem C1_supply_invariant_witness :
    cardZero.currentSupply ≤ max cardZero.maxSupply 1 :=
  C1_supply_invariant [cardZero] reachable_cardZero cardZero
    (List.mem_singleton.mpr rfl) (by decide)

end Maelmon
